import Mathlib

/-!
Verification development for the BioSynth-Designer 3D viewer core
(`ThreeDViewer` in the repository's single source component).

The viewer keeps a scene of objects (two lights plus content meshes).  A
structure-type switch (the React effect keyed on `type`) first empties the
scene, calling `geometry.dispose()` and `material.dispose()` on every mesh
(every element when the material is an array), then re-adds the lighting rig
and rebuilds content via the `dna` or `organoid` branch.  The resize handler
unconditionally recomputes the camera aspect ratio and the renderer size.

Numeric scene data is embedded symbolically: `E` is the expression language
generated by the JavaScript arithmetic the component performs (rational
literals, `Math.PI`, `+ - * /`, negation, `Math.cos/sin/sqrt`), so that the
whole state machine is computable, while `E.eval` interprets expressions in
the real numbers for the claims about coordinates and distances.
-/

namespace BioSynth

/-- Symbolic numeric expressions: exactly the arithmetic the viewer code
performs on JavaScript numbers. -/
inductive E where
  | lit : ℚ → E
  | pi : E
  | neg : E → E
  | add : E → E → E
  | sub : E → E → E
  | mul : E → E → E
  | div : E → E → E
  | cos : E → E
  | sin : E → E
  | sqrt : E → E
deriving DecidableEq, Repr

instance : Add E := ⟨E.add⟩

instance : Sub E := ⟨E.sub⟩

instance : Mul E := ⟨E.mul⟩

instance : Div E := ⟨E.div⟩

instance : Neg E := ⟨E.neg⟩

/-- Real-number semantics of a symbolic expression. -/
noncomputable def E.eval : E → ℝ
  | .lit q => (q : ℝ)
  | .pi => Real.pi
  | .neg a => -a.eval
  | .add a b => a.eval + b.eval
  | .sub a b => a.eval - b.eval
  | .mul a b => a.eval * b.eval
  | .div a b => a.eval / b.eval
  | .cos a => Real.cos a.eval
  | .sin a => Real.sin a.eval
  | .sqrt a => Real.sqrt a.eval

/-- A 3-component vector of symbolic expressions (an object position). -/
structure Vec3E where
  x : E
  y : E
  z : E
deriving DecidableEq, Repr

/-- `THREE.Vector3.normalize()` applied to a symbolic vector. -/
def normalize3 (v : Vec3E) : Vec3E :=
  let len := E.sqrt (v.x * v.x + v.y * v.y + v.z * v.z)
  ⟨v.x / len, v.y / len, v.z / len⟩

/-- The material slot of a mesh: a single material or an array of
sub-materials (the clearing loop branches on exactly this distinction). -/
inductive MatSlot where
  | single : ℕ → MatSlot
  | array : List ℕ → MatSlot
deriving DecidableEq, Repr

/-- Descriptor recorded when a GPU resource is allocated, mirroring the
constructor call in the source (`new THREE.CylinderGeometry(...)`, etc.). -/
inductive Desc where
  | cylinderGeometry (radiusTop radiusBottom height : E) (radialSegments : ℕ)
  | sphereGeometry (radius : E) (widthSegments heightSegments : ℕ)
  | meshPhongMaterial (color : ℕ) (shininess : ℚ) (transparent : Bool) (opacity : ℚ)
deriving DecidableEq, Repr

/-- One resource allocation: a fresh id together with its descriptor. -/
structure Alloc where
  id : ℕ
  desc : Desc
deriving DecidableEq, Repr

/-- A scene child: one of the two lights of the lighting rig, or a content
mesh referring to its geometry resource and material slot by id. -/
inductive Obj where
  | ambientLight (color : ℕ) (intensity : ℚ)
  | directionalLight (color : ℕ) (intensity : ℚ) (position : Vec3E)
  | mesh (geomId : ℕ) (material : MatSlot) (position : Vec3E) (rotZ : E)
deriving DecidableEq, Repr

/-- `new THREE.AmbientLight(0xffffff, 0.6)`. -/
def mkAmbient : Obj := .ambientLight 0xffffff (0.6 : ℚ)

/-- `new THREE.DirectionalLight(0xffffff, 0.8)` with
`position.set(0, 10, 5).normalize()`. -/
def mkDirectional : Obj :=
  .directionalLight 0xffffff (0.8 : ℚ) (normalize3 ⟨E.lit 0, E.lit 10, E.lit 5⟩)

/-- `object.isMesh`. -/
def isMesh : Obj → Bool
  | .mesh _ _ _ _ => true
  | _ => false

/-- Whether a child is the ambient light. -/
def isAmbient : Obj → Bool
  | .ambientLight _ _ => true
  | _ => false

/-- Whether a child is the directional light. -/
def isDirectional : Obj → Bool
  | .directionalLight _ _ _ => true
  | _ => false

/-- The resource ids passed to `dispose()` when one child is removed by the
clearing loop: nothing for a non-mesh, otherwise its geometry followed by its
material (each element in order when the material is an array). -/
def disposeCalls : Obj → List ℕ
  | .mesh g (.single m) _ _ => [g, m]
  | .mesh g (.array ms) _ _ => g :: ms
  | _ => []

/-- The full dispose log of the clearing loop
(`while children.length > 0 : remove children[0]`, disposing mesh
resources): children are processed in scene order. -/
def clearLog (children : List Obj) : List ℕ :=
  children.flatMap disposeCalls

/-- The helix parameters.  The source hardcodes `radius = 1`, `height = 4`,
`numSegments = 30` as local constants of the `dna` branch; following the
spec's Structure Parameters they are carried explicitly so the claims can
quantify over them. -/
structure HelixParams where
  radius : ℚ
  height : ℚ
  numSegments : ℕ
deriving DecidableEq, Repr

/-- The constants of the source's `dna` branch. -/
def defaultHelix : HelixParams := ⟨1, 4, 30⟩

/-- Output of a structure build: the content meshes in scene-insertion
order, the resources allocated (in allocation order), and the next fresh
resource id. -/
structure BuildOut where
  objs : List Obj
  allocs : List Alloc
  nextId : ℕ
deriving DecidableEq, Repr

/-- The body of the `dna` branch's `for (let i = 0; i <= numSegments; i++)`
loop, translated with explicit fuel (`fuel = numSegments + 1 - i` at entry).
Each iteration allocates one cylinder geometry shared by the two backbone
meshes of strand 1 and strand 2 (both using the shared backbone material
`matId`), and, while `i < numSegments`, one base-pair geometry for the
base-pair mesh (using the shared base material `baseMatId`). -/
def helixLoop (p : HelixParams) (matId baseMatId : ℕ) : ℕ → ℕ → ℕ → BuildOut
  | 0, _, nextId => ⟨[], [], nextId⟩
  | fuel + 1, i, nextId =>
    let segH : E := E.lit p.height / E.lit (p.numSegments : ℚ)
    let angle1 : E := E.lit (i : ℚ) / E.lit (p.numSegments : ℚ) * E.pi * E.lit 8
    let cylAlloc : Alloc :=
      ⟨nextId, .cylinderGeometry (E.lit (0.05 : ℚ)) (E.lit (0.05 : ℚ)) (segH + E.lit (0.1 : ℚ)) 8⟩
    let c1 : Obj := .mesh nextId (.single matId)
      ⟨E.lit p.radius * E.cos angle1, E.lit p.radius * E.sin angle1,
        E.lit (i : ℚ) * segH - E.lit p.height / E.lit 2⟩ (E.lit 0)
    let c2 : Obj := .mesh nextId (.single matId)
      ⟨E.lit p.radius * E.cos (angle1 + E.pi), E.lit p.radius * E.sin (angle1 + E.pi),
        E.lit (i : ℚ) * segH - E.lit p.height / E.lit 2⟩ (E.lit 0)
    if i < p.numSegments then
      let bpAlloc : Alloc :=
        ⟨nextId + 1, .cylinderGeometry (E.lit (0.03 : ℚ)) (E.lit (0.03 : ℚ)) (E.lit p.radius * E.lit 2) 8⟩
      let bp : Obj := .mesh (nextId + 1) (.single baseMatId)
        ⟨E.lit 0, E.lit 0, (E.lit (i : ℚ) + E.lit (0.5 : ℚ)) * segH - E.lit p.height / E.lit 2⟩
        (angle1 + E.pi / E.lit 2)
      let rest := helixLoop p matId baseMatId fuel (i + 1) (nextId + 2)
      ⟨c1 :: c2 :: bp :: rest.objs, cylAlloc :: bpAlloc :: rest.allocs, rest.nextId⟩
    else
      let rest := helixLoop p matId baseMatId fuel (i + 1) (nextId + 1)
      ⟨c1 :: c2 :: rest.objs, cylAlloc :: rest.allocs, rest.nextId⟩

/-- The `dna` branch: allocates the shared backbone material and the shared
base material, runs the segment loop, then allocates the core sphere
geometry and material and appends the core mesh at `z = -height / 2`. -/
def buildHelix (p : HelixParams) (startId : ℕ) : BuildOut :=
  let matAlloc : Alloc := ⟨startId, .meshPhongMaterial 0x007bff 80 false 1⟩
  let baseMatAlloc : Alloc := ⟨startId + 1, .meshPhongMaterial 0x800080 80 false 1⟩
  let loop := helixLoop p startId (startId + 1) (p.numSegments + 1) 0 (startId + 2)
  let coreGeomAlloc : Alloc := ⟨loop.nextId, .sphereGeometry (E.lit (0.3 : ℚ)) 32 32⟩
  let coreMatAlloc : Alloc := ⟨loop.nextId + 1, .meshPhongMaterial 0xffa500 100 false 1⟩
  let core : Obj := .mesh loop.nextId (.single (loop.nextId + 1))
    ⟨E.lit 0, E.lit 0, -E.lit p.height / E.lit 2⟩ (E.lit 0)
  ⟨loop.objs ++ [core],
    matAlloc :: baseMatAlloc :: loop.allocs ++ [coreGeomAlloc, coreMatAlloc],
    loop.nextId + 2⟩

/-- One organoid cell mesh, from the three successive `Math.random()` draws
`d1` (for `phi`), `d2` (for `theta`), `d3` (for `r`), sharing the cells
geometry `cellsGeomId` and the cell material `cellMatId`. -/
def mkCell (cellsGeomId cellMatId : ℕ) (d1 d2 d3 : ℚ) : Obj :=
  let phi : E := E.lit d1 * E.pi * E.lit 2
  let theta : E := E.lit d2 * E.pi
  let r : E := E.lit d3 * E.lit (0.8 : ℚ)
  .mesh cellsGeomId (.single cellMatId)
    ⟨r * E.sin theta * E.cos phi, r * E.sin theta * E.sin phi, r * E.cos theta⟩ (E.lit 0)

/-- The organoid branch's cell loop (`for (let i = 0; i < 50; i++)`), with
the global random stream `rng` read at the running cursor: each cell
consumes three consecutive draws.  Returns the cells and the new cursor. -/
def cellLoop (cellsGeomId cellMatId : ℕ) (rng : ℕ → ℚ) : ℕ → ℕ → List Obj × ℕ
  | 0, cursor => ([], cursor)
  | fuel + 1, cursor =>
    let cell := mkCell cellsGeomId cellMatId (rng cursor) (rng (cursor + 1)) (rng (cursor + 2))
    let rest := cellLoop cellsGeomId cellMatId rng fuel (cursor + 3)
    (cell :: rest.1, rest.2)

/-- Output of the organoid build: also returns the advanced random cursor. -/
structure OrganoidOut where
  objs : List Obj
  allocs : List Alloc
  nextId : ℕ
  cursor : ℕ
deriving DecidableEq, Repr

/-- The `organoid` branch: core sphere, outer translucent sphere, then the
shared cells geometry and cell material and `cellCount` cell meshes placed
from the global random stream.  The source hardcodes `cellCount = 50`; per
the spec's Structure Parameters it is carried explicitly. -/
def buildOrganoid (cellCount : ℕ) (rng : ℕ → ℚ) (cursor startId : ℕ) : OrganoidOut :=
  let coreGeomAlloc : Alloc := ⟨startId, .sphereGeometry (E.lit (1.0 : ℚ)) 32 32⟩
  let coreMatAlloc : Alloc := ⟨startId + 1, .meshPhongMaterial 0xff6347 50 true (0.8 : ℚ)⟩
  let core : Obj := .mesh startId (.single (startId + 1)) ⟨E.lit 0, E.lit 0, E.lit 0⟩ (E.lit 0)
  let outerGeomAlloc : Alloc := ⟨startId + 2, .sphereGeometry (E.lit (1.2 : ℚ)) 32 32⟩
  let outerMatAlloc : Alloc := ⟨startId + 3, .meshPhongMaterial 0x4682b4 50 true (0.6 : ℚ)⟩
  let outer : Obj := .mesh (startId + 2) (.single (startId + 3)) ⟨E.lit 0, E.lit 0, E.lit 0⟩ (E.lit 0)
  let cellsGeomAlloc : Alloc := ⟨startId + 4, .sphereGeometry (E.lit (0.1 : ℚ)) 16 16⟩
  let cellMatAlloc : Alloc := ⟨startId + 5, .meshPhongMaterial 0x90ee90 30 false 1⟩
  let cells := cellLoop (startId + 4) (startId + 5) rng cellCount cursor
  ⟨core :: outer :: cells.1,
    [coreGeomAlloc, coreMatAlloc, outerGeomAlloc, outerMatAlloc, cellsGeomAlloc, cellMatAlloc],
    startId + 6, cells.2⟩

/-- The mutable state the type effect acts on: the scene's children, the
next fresh resource id, and the cursor of the global `Math.random` stream. -/
structure Viewer where
  children : List Obj
  nextId : ℕ
  cursor : ℕ
deriving DecidableEq, Repr

/-- The scene right after the mount effect: lighting only. -/
def mountedViewer : Viewer := ⟨[mkAmbient, mkDirectional], 0, 0⟩

/-- Result of one structure-type switch: the new viewer state, the dispose
log of the clearing loop, and the resources allocated by the build. -/
structure SwitchResult where
  viewer : Viewer
  disposed : List ℕ
  allocated : List Alloc
deriving Repr

/-- The type effect (one structure-type switch): empty the scene, disposing
every mesh's geometry and material resources; re-add the lighting rig; then
run the branch selected by `ty` (`"dna"`, `"organoid"`, or no content for
any other value). -/
def setStructureType (p : HelixParams) (cellCount : ℕ) (rng : ℕ → ℚ) (ty : String)
    (v : Viewer) : SwitchResult :=
  let log := clearLog v.children
  if ty = "dna" then
    let b := buildHelix p v.nextId
    ⟨⟨mkAmbient :: mkDirectional :: b.objs, b.nextId, v.cursor⟩, log, b.allocs⟩
  else if ty = "organoid" then
    let b := buildOrganoid cellCount rng v.cursor v.nextId
    ⟨⟨mkAmbient :: mkDirectional :: b.objs, b.nextId, b.cursor⟩, log, b.allocs⟩
  else
    ⟨⟨[mkAmbient, mkDirectional], v.nextId, v.cursor⟩, log, []⟩

/-- A sequence of structure-type switches, accumulating the dispose log. -/
def runSwitches (p : HelixParams) (cellCount : ℕ) (rng : ℕ → ℚ) :
    List String → Viewer → Viewer × List ℕ
  | [], v => (v, [])
  | ty :: tys, v =>
    let r := setStructureType p cellCount rng ty v
    let rest := runSwitches p cellCount rng tys r.viewer
    (rest.1, r.disposed ++ rest.2)

/-- The content nodes of a scene: its mesh children. -/
def contentNodes (v : Viewer) : List Obj :=
  v.children.filter isMesh

/-- The positions of the meshes of a list of children, in scene order. -/
def meshPositions (objs : List Obj) : List Vec3E :=
  objs.filterMap fun o =>
    match o with
    | .mesh _ _ pos _ => some pos
    | _ => none

/-- The content the branch selected by `ty` would build from the state `v`
(used to state that after a switch the scene holds exactly the lighting rig
plus the current structure's nodes). -/
def buildNodes (p : HelixParams) (cellCount : ℕ) (rng : ℕ → ℚ) (ty : String)
    (v : Viewer) : List Obj :=
  if ty = "dna" then (buildHelix p v.nextId).objs
  else if ty = "organoid" then (buildOrganoid cellCount rng v.cursor v.nextId).objs
  else []

/-- The number of content nodes a switch to `ty` leaves in the scene. -/
def switchCount (p : HelixParams) (cellCount : ℕ) (ty : String) : ℕ :=
  if ty = "dna" then 3 * p.numSegments + 3
  else if ty = "organoid" then cellCount + 2
  else 0

/-- JavaScript numbers as far as the viewport arithmetic needs them: a
finite rational value, or the non-finite values division can produce. -/
inductive JsNum where
  | num : ℚ → JsNum
  | nan : JsNum
  | posInf : JsNum
  | negInf : JsNum
deriving DecidableEq, Repr

/-- JavaScript division `a / b`: `0 / 0` is `NaN`, `a / 0` with `a ≠ 0` is a
signed infinity, otherwise the exact quotient. -/
def jsDiv (a b : ℚ) : JsNum :=
  if b = 0 then (if a = 0 then .nan else if 0 < a then .posInf else .negInf)
  else .num (a / b)

/-- The camera fields the component sets:
`new THREE.PerspectiveCamera(75, width / height, 0.1, 1000)` with
`camera.position.z = 5`. -/
structure Camera where
  fov : ℚ
  aspect : JsNum
  near : ℚ
  far : ℚ
  posZ : ℚ
deriving DecidableEq, Repr

/-- The renderer surface dimensions set by `renderer.setSize`. -/
structure Renderer where
  width : ℚ
  height : ℚ
deriving DecidableEq, Repr

/-- Camera construction at mount, with the mount's client dimensions. -/
def initCamera (w h : ℚ) : Camera := ⟨75, jsDiv w h, 0.1, 1000, 5⟩

/-- The resize handler `onWindowResize`, with the mount's client dimensions
`w`, `h` at the time it fires (the refs are non-null while mounted): it
unconditionally assigns `camera.aspect = w / h`, recomputes the projection,
and resizes the surface to `w × h`. -/
def onWindowResize (w h : ℚ) (cam : Camera) (_r : Renderer) : Camera × Renderer :=
  (⟨cam.fov, jsDiv w h, cam.near, cam.far, cam.posZ⟩, ⟨w, h⟩)

/-! ### Evaluation lemmas for the expression language -/

@[simp] theorem eval_lit (q : ℚ) : (E.lit q).eval = (q : ℝ) := rfl

@[simp] theorem eval_pi : E.pi.eval = Real.pi := rfl

@[simp] theorem eval_neg (a : E) : (-a).eval = -a.eval := rfl

@[simp] theorem eval_add (a b : E) : (a + b).eval = a.eval + b.eval := rfl

@[simp] theorem eval_sub (a b : E) : (a - b).eval = a.eval - b.eval := rfl

@[simp] theorem eval_mul (a b : E) : (a * b).eval = a.eval * b.eval := rfl

@[simp] theorem eval_div (a b : E) : (a / b).eval = a.eval / b.eval := rfl

@[simp] theorem eval_cos (a : E) : (E.cos a).eval = Real.cos a.eval := rfl

@[simp] theorem eval_sin (a : E) : (E.sin a).eval = Real.sin a.eval := rfl

@[simp] theorem eval_sqrt (a : E) : (E.sqrt a).eval = Real.sqrt a.eval := rfl

/-! ### Shape of built content

Every object the two builders produce is a mesh with a single (non-array)
material.  This is the fact behind the lighting/content separation and the
two-disposals-per-node accounting. -/

/-- A mesh with a single material slot. -/
def simpleMesh : Obj → Bool
  | .mesh _ (.single _) _ _ => true
  | _ => false

theorem isMesh_of_simpleMesh {o : Obj} (h : simpleMesh o = true) : isMesh o = true := by
  cases o with
  | mesh g m pos rot => cases m <;> simp [isMesh]
  | ambientLight c i => simp [simpleMesh] at h
  | directionalLight c i p => simp [simpleMesh] at h

theorem disposeCalls_length_of_simpleMesh {o : Obj} (h : simpleMesh o = true) :
    (disposeCalls o).length = 2 := by
  cases o with
  | mesh g m pos rot =>
    cases m with
    | single m => simp [disposeCalls]
    | array ms => simp [simpleMesh] at h
  | ambientLight c i => simp [simpleMesh] at h
  | directionalLight c i p => simp [simpleMesh] at h

theorem filter_isMesh_eq_self {l : List Obj} (h : ∀ o ∈ l, simpleMesh o = true) :
    l.filter isMesh = l :=
  List.filter_eq_self.mpr fun o ho => isMesh_of_simpleMesh (h o ho)

theorem clearLog_length {l : List Obj} (h : ∀ o ∈ l, simpleMesh o = true) :
    (clearLog l).length = 2 * l.length := by
  induction l with
  | nil => rfl
  | cons o l ih =>
    have ho := h o (List.mem_cons_self o l)
    have hl := ih fun x hx => h x (List.mem_cons_of_mem o hx)
    simp only [clearLog, List.flatMap_cons, List.length_append, List.length_cons] at *
    rw [disposeCalls_length_of_simpleMesh ho, hl]
    ring

theorem helixLoop_simple (p : HelixParams) (a b : ℕ) :
    ∀ (fuel i nid : ℕ), ∀ o ∈ (helixLoop p a b fuel i nid).objs, simpleMesh o = true := by
  intro fuel
  induction fuel with
  | zero => intro i nid o ho; simp [helixLoop] at ho
  | succ f ih =>
    intro i nid o ho
    by_cases hi : i < p.numSegments <;>
      simp only [helixLoop, hi, if_true, if_false, List.mem_cons] at ho <;>
      rcases ho with h | h | h <;>
      first
        | (subst h; rfl)
        | (exact ih _ _ o h)
        | (rcases h with h | h
           · subst h; rfl
           · exact ih _ _ o h)

theorem buildHelix_simple (p : HelixParams) (s : ℕ) :
    ∀ o ∈ (buildHelix p s).objs, simpleMesh o = true := by
  intro o ho
  simp only [buildHelix, List.mem_append, List.mem_singleton] at ho
  rcases ho with h | h
  · exact helixLoop_simple p s (s + 1) _ 0 (s + 2) o h
  · subst h; rfl

theorem cellLoop_simple (g m : ℕ) (rng : ℕ → ℚ) :
    ∀ (fuel c : ℕ), ∀ o ∈ (cellLoop g m rng fuel c).1, simpleMesh o = true := by
  intro fuel
  induction fuel with
  | zero => intro c o ho; simp [cellLoop] at ho
  | succ f ih =>
    intro c o ho
    simp only [cellLoop, List.mem_cons] at ho
    rcases ho with h | h
    · subst h; rfl
    · exact ih _ o h

theorem buildOrganoid_simple (n : ℕ) (rng : ℕ → ℚ) (c s : ℕ) :
    ∀ o ∈ (buildOrganoid n rng c s).objs, simpleMesh o = true := by
  intro o ho
  simp only [buildOrganoid, List.mem_cons] at ho
  rcases ho with h | h | h
  · subst h; rfl
  · subst h; rfl
  · exact cellLoop_simple (s + 4) (s + 5) rng n c o h

/-! ### Helix node, allocation and id counting -/

theorem helixLoop_objs_length (p : HelixParams) (a b : ℕ) :
    ∀ (fuel i nid : ℕ), i + fuel = p.numSegments + 1 →
      (helixLoop p a b fuel i nid).objs.length = 3 * fuel - 1 := by
  intro fuel
  induction fuel with
  | zero => intro i nid h; simp [helixLoop]
  | succ f ih =>
    intro i nid h
    by_cases hi : i < p.numSegments
    · have hrec := ih (i + 1) (nid + 2) (by omega)
      simp only [helixLoop, hi, if_true, List.length_cons]
      omega
    · have hf : f = 0 := by omega
      subst hf
      simp [helixLoop, hi]

theorem helixLoop_allocs_length (p : HelixParams) (a b : ℕ) :
    ∀ (fuel i nid : ℕ), i + fuel = p.numSegments + 1 →
      (helixLoop p a b fuel i nid).allocs.length = 2 * fuel - 1 := by
  intro fuel
  induction fuel with
  | zero => intro i nid h; simp [helixLoop]
  | succ f ih =>
    intro i nid h
    by_cases hi : i < p.numSegments
    · have hrec := ih (i + 1) (nid + 2) (by omega)
      simp only [helixLoop, hi, if_true, List.length_cons]
      omega
    · have hf : f = 0 := by omega
      subst hf
      simp [helixLoop, hi]

theorem helixLoop_nextId (p : HelixParams) (a b : ℕ) :
    ∀ (fuel i nid : ℕ), i + fuel = p.numSegments + 1 →
      (helixLoop p a b fuel i nid).nextId = nid + (2 * fuel - 1) := by
  intro fuel
  induction fuel with
  | zero => intro i nid h; simp [helixLoop]
  | succ f ih =>
    intro i nid h
    by_cases hi : i < p.numSegments
    · have hrec := ih (i + 1) (nid + 2) (by omega)
      simp only [helixLoop, hi, if_true]
      omega
    · have hf : f = 0 := by omega
      subst hf
      simp [helixLoop, hi]

theorem buildHelix_objs_length (p : HelixParams) (s : ℕ) :
    (buildHelix p s).objs.length = 3 * p.numSegments + 3 := by
  have h := helixLoop_objs_length p s (s + 1) (p.numSegments + 1) 0 (s + 2) (by omega)
  simp only [buildHelix, List.length_append, List.length_cons, List.length_nil]
  omega

theorem buildHelix_allocs_length (p : HelixParams) (s : ℕ) :
    (buildHelix p s).allocs.length = 2 * p.numSegments + 5 := by
  have h := helixLoop_allocs_length p s (s + 1) (p.numSegments + 1) 0 (s + 2) (by omega)
  simp only [buildHelix, List.length_cons, List.length_append, List.length_nil]
  omega

theorem buildHelix_nextId (p : HelixParams) (s : ℕ) :
    (buildHelix p s).nextId = s + 2 * p.numSegments + 5 := by
  have h := helixLoop_nextId p s (s + 1) (p.numSegments + 1) 0 (s + 2) (by omega)
  show (helixLoop p s (s + 1) (p.numSegments + 1) 0 (s + 2)).nextId + 2 = s + 2 * p.numSegments + 5
  omega

/-! ### Organoid node counting -/

theorem cellLoop_length (g m : ℕ) (rng : ℕ → ℚ) :
    ∀ (fuel c : ℕ), (cellLoop g m rng fuel c).1.length = fuel := by
  intro fuel
  induction fuel with
  | zero => intro c; rfl
  | succ f ih => intro c; simp [cellLoop, ih]

theorem cellLoop_cursor (g m : ℕ) (rng : ℕ → ℚ) :
    ∀ (fuel c : ℕ), (cellLoop g m rng fuel c).2 = c + 3 * fuel := by
  intro fuel
  induction fuel with
  | zero => intro c; simp [cellLoop]
  | succ f ih => intro c; simp [cellLoop, ih]; omega

theorem buildOrganoid_objs_length (n : ℕ) (rng : ℕ → ℚ) (c s : ℕ) :
    (buildOrganoid n rng c s).objs.length = n + 2 := by
  simp [buildOrganoid, cellLoop_length]

/-! ### Counting nodes by material

The backbone meshes all use the shared backbone material, the base-pair
meshes the shared base material, and the core its own material, so counting
meshes by their single material id separates the three primitive kinds. -/

/-- Whether a mesh's single material slot is the resource `m`. -/
def usesMat (m : ℕ) : Obj → Bool
  | .mesh _ (.single mm) _ _ => mm == m
  | _ => false

/-- How many meshes of `objs` use the material resource `m`. -/
def countMat (m : ℕ) (objs : List Obj) : ℕ := objs.countP (usesMat m)

theorem helixLoop_countMat (p : HelixParams) (a b : ℕ) (hab : a ≠ b) (m : ℕ) :
    ∀ (fuel i nid : ℕ), i + fuel = p.numSegments + 1 →
      countMat m (helixLoop p a b fuel i nid).objs =
        if m = a then 2 * fuel else if m = b then fuel - 1 else 0 := by
  intro fuel
  induction fuel with
  | zero =>
    intro i nid h
    simp only [helixLoop, countMat, List.countP_nil]
    split <;> try split
    all_goals omega
  | succ f ih =>
    intro i nid h
    by_cases hi : i < p.numSegments
    · have hrec := ih (i + 1) (nid + 2) (by omega)
      have hf : 1 ≤ f := by omega
      simp only [helixLoop, hi, if_true]
      simp only [countMat, List.countP_cons, usesMat, beq_iff_eq] at hrec ⊢
      rw [hrec]
      split_ifs <;> omega
    · have hf : f = 0 := by omega
      subst hf
      simp only [helixLoop, hi, if_false]
      simp only [countMat, List.countP_cons, List.countP_nil, usesMat, beq_iff_eq]
      split_ifs <;> omega

theorem buildHelix_countMat (p : HelixParams) (s m : ℕ) :
    countMat m (buildHelix p s).objs =
      if m = s then 2 * (p.numSegments + 1)
      else if m = s + 1 then p.numSegments
      else if m = s + 2 * p.numSegments + 4 then 1 else 0 := by
  have hl := helixLoop_countMat p s (s + 1) (by omega) m (p.numSegments + 1) 0 (s + 2) (by omega)
  have hn := helixLoop_nextId p s (s + 1) (p.numSegments + 1) 0 (s + 2) (by omega)
  simp only [buildHelix, countMat, List.countP_append, List.countP_cons, List.countP_nil,
    usesMat, beq_iff_eq] at hl ⊢
  rw [hl, hn]
  split_ifs <;> omega

theorem buildHelix_countMat_backbone (p : HelixParams) (s : ℕ) :
    countMat s (buildHelix p s).objs = 2 * (p.numSegments + 1) := by
  rw [buildHelix_countMat, if_pos rfl]

theorem buildHelix_countMat_base (p : HelixParams) (s : ℕ) :
    countMat (s + 1) (buildHelix p s).objs = p.numSegments := by
  rw [buildHelix_countMat, if_neg (by omega), if_pos rfl]

theorem buildHelix_countMat_core (p : HelixParams) (s : ℕ) :
    countMat (s + 2 * p.numSegments + 4) (buildHelix p s).objs = 1 := by
  rw [buildHelix_countMat, if_neg (by omega), if_neg (by omega), if_pos rfl]

/-! ### Positions are independent of the resource-id counter -/

theorem helixLoop_positions (p : HelixParams) :
    ∀ (fuel i : ℕ) (a1 b1 n1 a2 b2 n2 : ℕ),
      meshPositions (helixLoop p a1 b1 fuel i n1).objs =
        meshPositions (helixLoop p a2 b2 fuel i n2).objs := by
  intro fuel
  induction fuel with
  | zero => intro i a1 b1 n1 a2 b2 n2; rfl
  | succ f ih =>
    intro i a1 b1 n1 a2 b2 n2
    by_cases hi : i < p.numSegments
    · have hrec := ih (i + 1) a1 b1 (n1 + 2) a2 b2 (n2 + 2)
      simp only [helixLoop, hi, if_true]
      simp only [meshPositions, List.filterMap_cons] at hrec ⊢
      rw [hrec]
    · have hrec := ih (i + 1) a1 b1 (n1 + 1) a2 b2 (n2 + 1)
      simp only [helixLoop, hi, if_false]
      simp only [meshPositions, List.filterMap_cons] at hrec ⊢
      rw [hrec]

theorem buildHelix_positions (p : HelixParams) (s1 s2 : ℕ) :
    meshPositions (buildHelix p s1).objs = meshPositions (buildHelix p s2).objs := by
  have hl := helixLoop_positions p (p.numSegments + 1) 0 s1 (s1 + 1) (s1 + 2) s2 (s2 + 1) (s2 + 2)
  simp only [buildHelix, meshPositions, List.filterMap_append, List.filterMap_cons,
    List.filterMap_nil] at hl ⊢
  rw [hl]

/-! ### The cell loop as a function of its consumed draws -/

theorem cellLoop_congr (g m : ℕ) (rng1 rng2 : ℕ → ℚ) :
    ∀ (fuel c1 c2 : ℕ), (∀ k, k < 3 * fuel → rng1 (c1 + k) = rng2 (c2 + k)) →
      (cellLoop g m rng1 fuel c1).1 = (cellLoop g m rng2 fuel c2).1 := by
  intro fuel
  induction fuel with
  | zero => intro c1 c2 h; rfl
  | succ f ih =>
    intro c1 c2 h
    have h0 : rng1 c1 = rng2 c2 := by
      have := h 0 (by omega)
      simpa using this
    have h1 : rng1 (c1 + 1) = rng2 (c2 + 1) := h 1 (by omega)
    have h2 : rng1 (c1 + 2) = rng2 (c2 + 2) := h 2 (by omega)
    have hrest : ∀ k, k < 3 * f → rng1 (c1 + 3 + k) = rng2 (c2 + 3 + k) := by
      intro k hk
      have hh := h (3 + k) (by omega)
      have e1 : c1 + (3 + k) = c1 + 3 + k := by omega
      have e2 : c2 + (3 + k) = c2 + 3 + k := by omega
      rw [e1, e2] at hh
      exact hh
    simp only [cellLoop]
    rw [h0, h1, h2, ih (c1 + 3) (c2 + 3) hrest]

theorem cellLoop_mem (g m : ℕ) (rng : ℕ → ℚ) :
    ∀ (fuel c : ℕ) (o : Obj), o ∈ (cellLoop g m rng fuel c).1 →
      ∃ k, k < fuel ∧
        o = mkCell g m (rng (c + 3 * k)) (rng (c + 3 * k + 1)) (rng (c + 3 * k + 2)) := by
  intro fuel
  induction fuel with
  | zero => intro c o ho; simp [cellLoop] at ho
  | succ f ih =>
    intro c o ho
    simp only [cellLoop, List.mem_cons] at ho
    rcases ho with h | h
    · exact ⟨0, by omega, by simpa using h⟩
    · obtain ⟨k, hk, he⟩ := ih (c + 3) o h
      refine ⟨k + 1, by omega, ?_⟩
      have e0 : c + 3 + 3 * k = c + 3 * (k + 1) := by omega
      rw [e0] at he
      exact he

/-! ### One structure-type switch -/

theorem setStructureType_children (p : HelixParams) (cc : ℕ) (rng : ℕ → ℚ) (ty : String)
    (v : Viewer) :
    (setStructureType p cc rng ty v).viewer.children =
      mkAmbient :: mkDirectional :: buildNodes p cc rng ty v := by
  by_cases h1 : ty = "dna"
  · simp [setStructureType, buildNodes, h1]
  · by_cases h2 : ty = "organoid" <;> simp [setStructureType, buildNodes, h1, h2]

theorem setStructureType_disposed (p : HelixParams) (cc : ℕ) (rng : ℕ → ℚ) (ty : String)
    (v : Viewer) :
    (setStructureType p cc rng ty v).disposed = clearLog v.children := by
  by_cases h1 : ty = "dna"
  · simp [setStructureType, h1]
  · by_cases h2 : ty = "organoid" <;> simp [setStructureType, h1, h2]

theorem buildNodes_simple (p : HelixParams) (cc : ℕ) (rng : ℕ → ℚ) (ty : String) (v : Viewer) :
    ∀ o ∈ buildNodes p cc rng ty v, simpleMesh o = true := by
  intro o ho
  by_cases h1 : ty = "dna"
  · simp only [buildNodes, h1, if_true] at ho
    exact buildHelix_simple p v.nextId o ho
  · by_cases h2 : ty = "organoid"
    · simp only [buildNodes, h1, h2, if_false, if_true] at ho
      exact buildOrganoid_simple cc rng v.cursor v.nextId o ho
    · simp [buildNodes, h1, h2] at ho

theorem buildNodes_length (p : HelixParams) (cc : ℕ) (rng : ℕ → ℚ) (ty : String) (v : Viewer) :
    (buildNodes p cc rng ty v).length = switchCount p cc ty := by
  by_cases h1 : ty = "dna"
  · simp [buildNodes, switchCount, h1, buildHelix_objs_length]
  · by_cases h2 : ty = "organoid" <;>
      simp [buildNodes, switchCount, h1, h2, buildOrganoid_objs_length]

theorem contentNodes_setStructureType (p : HelixParams) (cc : ℕ) (rng : ℕ → ℚ) (ty : String)
    (v : Viewer) :
    contentNodes (setStructureType p cc rng ty v).viewer = buildNodes p cc rng ty v := by
  rw [contentNodes, setStructureType_children]
  have hfilter : (mkAmbient :: mkDirectional :: buildNodes p cc rng ty v).filter isMesh
      = (buildNodes p cc rng ty v).filter isMesh := by
    simp [List.filter_cons, mkAmbient, mkDirectional, isMesh]
  rw [hfilter, filter_isMesh_eq_self (buildNodes_simple p cc rng ty v)]

theorem setStructureType_viewer_eq (p : HelixParams) (cc : ℕ) (rng : ℕ → ℚ) (ty : String)
    (v : Viewer) :
    (setStructureType p cc rng ty v).viewer =
      ⟨mkAmbient :: mkDirectional :: buildNodes p cc rng ty v,
        (setStructureType p cc rng ty v).viewer.nextId,
        (setStructureType p cc rng ty v).viewer.cursor⟩ := by
  conv_lhs => rw [show (setStructureType p cc rng ty v).viewer =
    ⟨(setStructureType p cc rng ty v).viewer.children,
      (setStructureType p cc rng ty v).viewer.nextId,
      (setStructureType p cc rng ty v).viewer.cursor⟩ from rfl]
  rw [setStructureType_children]

theorem setStructureType_disposed_length (p : HelixParams) (cc : ℕ) (rng : ℕ → ℚ) (ty : String)
    (content : List Obj) (nid cur : ℕ) (hc : ∀ o ∈ content, simpleMesh o = true) :
    (setStructureType p cc rng ty ⟨mkAmbient :: mkDirectional :: content, nid, cur⟩).disposed.length
      = 2 * content.length := by
  rw [setStructureType_disposed]
  show (clearLog (mkAmbient :: mkDirectional :: content)).length = 2 * content.length
  have : clearLog (mkAmbient :: mkDirectional :: content) = clearLog content := rfl
  rw [this, clearLog_length hc]

/-! ### Dispose accounting over a sequence of switches -/

theorem runSwitches_log_length (p : HelixParams) (cc : ℕ) (rng : ℕ → ℚ) :
    ∀ (tys : List String) (content : List Obj) (nid cur : ℕ),
      (∀ o ∈ content, simpleMesh o = true) →
      (runSwitches p cc rng tys ⟨mkAmbient :: mkDirectional :: content, nid, cur⟩).2.length =
        if tys = [] then 0
        else 2 * (content.length + ((tys.dropLast).map (switchCount p cc)).sum) := by
  intro tys
  induction tys with
  | nil => intro content nid cur hc; rfl
  | cons ty tys ih =>
    intro content nid cur hc
    simp only [runSwitches, List.length_append]
    rw [setStructureType_disposed_length p cc rng ty content nid cur hc]
    rw [setStructureType_viewer_eq]
    rw [ih (buildNodes p cc rng ty ⟨mkAmbient :: mkDirectional :: content, nid, cur⟩) _ _
      (buildNodes_simple p cc rng ty ⟨mkAmbient :: mkDirectional :: content, nid, cur⟩)]
    have hbn := buildNodes_length p cc rng ty ⟨mkAmbient :: mkDirectional :: content, nid, cur⟩
    cases tys with
    | nil =>
      simp only [if_pos rfl, if_neg (List.cons_ne_nil ty [])]
      simp [List.dropLast]
    | cons ty2 tys2 =>
      rw [if_neg (List.cons_ne_nil ty2 tys2), if_neg (List.cons_ne_nil ty (ty2 :: tys2))]
      have hdl : (ty :: ty2 :: tys2).dropLast = ty :: (ty2 :: tys2).dropLast := rfl
      rw [hdl, List.map_cons, List.sum_cons]
      omega

/-! ### Light counting and evaluated geometry -/

theorem countP_isAmbient_zero {l : List Obj} (h : ∀ o ∈ l, simpleMesh o = true) :
    l.countP isAmbient = 0 := by
  rw [List.countP_eq_zero]
  intro o ho
  have hs := h o ho
  cases o <;> simp_all [simpleMesh, isAmbient]

theorem countP_isDirectional_zero {l : List Obj} (h : ∀ o ∈ l, simpleMesh o = true) :
    l.countP isDirectional = 0 := by
  rw [List.countP_eq_zero]
  intro o ho
  have hs := h o ho
  cases o <;> simp_all [simpleMesh, isDirectional]

/-- `contentNodes` of a switch to `"dna"` is exactly the fresh helix build. -/
theorem contentNodes_dna (p : HelixParams) (cc : ℕ) (rng : ℕ → ℚ) (w : Viewer) :
    contentNodes (setStructureType p cc rng "dna" w).viewer = (buildHelix p w.nextId).objs := by
  rw [contentNodes_setStructureType]
  simp [buildNodes]

/-- The Euclidean distance of a mesh's position from the origin (`0` for the
lights, which have no content position). -/
noncomputable def objDist : Obj → ℝ
  | .mesh _ _ pos _ => Real.sqrt (pos.x.eval ^ 2 + pos.y.eval ^ 2 + pos.z.eval ^ 2)
  | _ => 0

/-- Norm of a point given in spherical form: if `s, c` are the sine and
cosine of one angle and `u, w` the cosine and sine of another, the point
`(a·s·u, a·s·w, a·c)` has norm `a` for `0 ≤ a`. -/
theorem sqrt_sphere_point (a s c u w : ℝ) (hsc : s ^ 2 + c ^ 2 = 1) (huw : u ^ 2 + w ^ 2 = 1)
    (ha : 0 ≤ a) :
    Real.sqrt ((a * s * u) ^ 2 + (a * s * w) ^ 2 + (a * c) ^ 2) = a := by
  have hsum : (a * s * u) ^ 2 + (a * s * w) ^ 2 + (a * c) ^ 2 = a ^ 2 := by
    linear_combination (a ^ 2 * s ^ 2) * huw + a ^ 2 * hsc
  rw [hsum, Real.sqrt_sq ha]

theorem mkCell_dist (g m : ℕ) (d1 d2 d3 : ℚ) (h0 : 0 ≤ d3) (h1 : d3 < 1) :
    objDist (mkCell g m d1 d2 d3) ≤ 0.8 ∧ objDist (mkCell g m d1 d2 d3) < 1 := by
  have h0' : (0 : ℝ) ≤ (d3 : ℝ) := by exact_mod_cast h0
  have h1' : (d3 : ℝ) < 1 := by exact_mod_cast h1
  have hkey : objDist (mkCell g m d1 d2 d3) = (d3 : ℝ) * ((0.8 : ℚ) : ℝ) := by
    simp only [mkCell, objDist, eval_mul, eval_lit, eval_sin, eval_cos, eval_pi]
    exact sqrt_sphere_point ((d3 : ℝ) * ((0.8 : ℚ) : ℝ)) _ _ _ _
      (Real.sin_sq_add_cos_sq _) (Real.cos_sq_add_sin_sq _)
      (mul_nonneg h0' (by norm_num))
  have h08 : ((0.8 : ℚ) : ℝ) = 0.8 := by norm_num
  rw [hkey, h08]
  constructor
  · nlinarith
  · nlinarith

/-- The constant-zero random stream (used as a concrete witness stream). -/
def zeroRng : ℕ → ℚ := fun _ => 0

/-- A concrete random stream whose sixth draw differs from the others. -/
def cexRng : ℕ → ℚ := fun k => if k = 5 then 1 else 0

/-- Real-evaluated coordinates of a symbolic position. -/
noncomputable def evalVec (v : Vec3E) : ℝ × ℝ × ℝ := (v.x.eval, v.y.eval, v.z.eval)

/-- The evaluated coordinate sequence of the meshes of a child list. -/
noncomputable def meshCoords (objs : List Obj) : List (ℝ × ℝ × ℝ) :=
  (meshPositions objs).map evalVec

/-! ### The claims -/

/-- C2: for every segmentCount at least 1, the helix builder produces
exactly `2 * (segmentCount + 1)` backbone primitives (the meshes using the
shared backbone material), `segmentCount` base-pair primitives (the meshes
using the shared base material) and one core primitive (the mesh using the
core material), hence `3 * segmentCount + 3` content nodes in total; in
particular, with the source's constants (radius 1, height 4, segmentCount
30) it produces exactly 93 nodes. -/
theorem claim2_helix_node_count :
    (∀ (p : HelixParams) (s : ℕ), 1 ≤ p.numSegments →
      (buildHelix p s).objs.length = 3 * p.numSegments + 3 ∧
      countMat s (buildHelix p s).objs = 2 * (p.numSegments + 1) ∧
      countMat (s + 1) (buildHelix p s).objs = p.numSegments ∧
      countMat (s + 2 * p.numSegments + 4) (buildHelix p s).objs = 1) ∧
    (buildHelix defaultHelix 0).objs.length = 93 := by
  constructor
  · intro p s _h
    exact ⟨buildHelix_objs_length p s, buildHelix_countMat_backbone p s,
      buildHelix_countMat_base p s, buildHelix_countMat_core p s⟩
  · rw [buildHelix_objs_length]
    rfl

/-- Witness for C2, applying the theorem at the source's own constants. -/
theorem claim2_helix_node_count_witness :
    (buildHelix (⟨1, 4, 30⟩ : HelixParams) 0).objs.length = 3 * 30 + 3 ∧
    countMat 0 (buildHelix (⟨1, 4, 30⟩ : HelixParams) 0).objs = 2 * (30 + 1) :=
  ⟨(claim2_helix_node_count.1 ⟨1, 4, 30⟩ 0 (by norm_num)).1,
    (claim2_helix_node_count.1 ⟨1, 4, 30⟩ 0 (by norm_num)).2.1⟩

/-- C3: for every cellCount, the organoid builder produces exactly
`cellCount + 2` content nodes: one core sphere mesh, one outer translucent
sphere mesh, and `cellCount` cell meshes; in particular with cellCount 50
it produces exactly 52 nodes. -/
theorem claim3_organoid_node_count :
    (∀ (n : ℕ) (rng : ℕ → ℚ) (c s : ℕ),
      (buildOrganoid n rng c s).objs.length = n + 2 ∧
      (buildOrganoid n rng c s).objs =
        Obj.mesh s (.single (s + 1)) ⟨E.lit 0, E.lit 0, E.lit 0⟩ (E.lit 0) ::
          Obj.mesh (s + 2) (.single (s + 3)) ⟨E.lit 0, E.lit 0, E.lit 0⟩ (E.lit 0) ::
          (cellLoop (s + 4) (s + 5) rng n c).1 ∧
      (cellLoop (s + 4) (s + 5) rng n c).1.length = n) ∧
    (buildOrganoid 50 zeroRng 0 0).objs.length = 52 := by
  constructor
  · intro n rng c s
    exact ⟨buildOrganoid_objs_length n rng c s, rfl, cellLoop_length (s + 4) (s + 5) rng n c⟩
  · rw [buildOrganoid_objs_length]

/-- C4: switching a scene to "dna", then to "organoid", then back to "dna"
with the same parameters leaves the scene's content nodes exactly equal to
one fresh helix build (so no residual organoid nodes), with the same node
count and identical coordinates as any single fresh "dna" build. -/
theorem claim4_dna_round_trip (p : HelixParams) (cc : ℕ) (rng : ℕ → ℚ) (v : Viewer) (s : ℕ) :
    contentNodes (setStructureType p cc rng "dna"
        ((setStructureType p cc rng "organoid"
          ((setStructureType p cc rng "dna" v).viewer)).viewer)).viewer =
      (buildHelix p ((setStructureType p cc rng "organoid"
          ((setStructureType p cc rng "dna" v).viewer)).viewer).nextId).objs ∧
    (contentNodes (setStructureType p cc rng "dna"
        ((setStructureType p cc rng "organoid"
          ((setStructureType p cc rng "dna" v).viewer)).viewer)).viewer).length =
      (buildHelix p s).objs.length ∧
    meshPositions (contentNodes (setStructureType p cc rng "dna"
        ((setStructureType p cc rng "organoid"
          ((setStructureType p cc rng "dna" v).viewer)).viewer)).viewer) =
      meshPositions (buildHelix p s).objs := by
  refine ⟨contentNodes_dna p cc rng _, ?_, ?_⟩
  · rw [contentNodes_dna, buildHelix_objs_length, buildHelix_objs_length]
  · rw [contentNodes_dna]
    exact buildHelix_positions p _ s

/-- C5: switching to "dna" twice in a row yields the same final scene size
(total children and content nodes) as switching once: the second switch
neither duplicates nor leaks nodes. -/
theorem claim5_dna_idempotent (p : HelixParams) (cc : ℕ) (rng : ℕ → ℚ) (v : Viewer) :
    ((setStructureType p cc rng "dna"
        ((setStructureType p cc rng "dna" v).viewer)).viewer).children.length =
      ((setStructureType p cc rng "dna" v).viewer).children.length ∧
    (contentNodes ((setStructureType p cc rng "dna"
        ((setStructureType p cc rng "dna" v).viewer)).viewer)).length =
      (contentNodes ((setStructureType p cc rng "dna" v).viewer)).length := by
  constructor
  · rw [setStructureType_children, setStructureType_children]
    simp only [List.length_cons, buildNodes_length]
  · rw [contentNodes_dna, contentNodes_dna, buildHelix_objs_length, buildHelix_objs_length]

/-- C8: for every structure-type value that is neither "dna" nor
"organoid", the switch succeeds (it is a total function in this model) and
leaves the scene holding exactly the lighting rig and no content nodes. -/
theorem claim8_unknown_type (p : HelixParams) (cc : ℕ) (rng : ℕ → ℚ) (ty : String) (v : Viewer)
    (h1 : ty ≠ "dna") (h2 : ty ≠ "organoid") :
    (setStructureType p cc rng ty v).viewer.children = [mkAmbient, mkDirectional] ∧
    contentNodes (setStructureType p cc rng ty v).viewer = [] := by
  constructor
  · simp [setStructureType, h1, h2]
  · rw [contentNodes_setStructureType]
    simp [buildNodes, h1, h2]

/-- Witness for C8 at the concrete unrecognized value "protein". -/
theorem claim8_unknown_type_witness :
    (setStructureType defaultHelix 50 zeroRng "protein" mountedViewer).viewer.children =
      [mkAmbient, mkDirectional] ∧
    contentNodes (setStructureType defaultHelix 50 zeroRng "protein" mountedViewer).viewer = [] :=
  claim8_unknown_type defaultHelix 50 zeroRng "protein" mountedViewer (by decide) (by decide)

/-- C9: after every structure-type switch, whatever the chosen type and the
prior scene, the scene consists of exactly one ambient light, one
directional light, and exactly the nodes of the current build — no mixing
of old and new structure nodes. -/
theorem claim9_lighting_invariant (p : HelixParams) (cc : ℕ) (rng : ℕ → ℚ) (ty : String)
    (v : Viewer) :
    (setStructureType p cc rng ty v).viewer.children =
      mkAmbient :: mkDirectional :: buildNodes p cc rng ty v ∧
    (setStructureType p cc rng ty v).viewer.children.countP isAmbient = 1 ∧
    (setStructureType p cc rng ty v).viewer.children.countP isDirectional = 1 ∧
    contentNodes (setStructureType p cc rng ty v).viewer = buildNodes p cc rng ty v := by
  refine ⟨setStructureType_children p cc rng ty v, ?_, ?_,
    contentNodes_setStructureType p cc rng ty v⟩
  · rw [setStructureType_children]
    simp only [List.countP_cons]
    rw [countP_isAmbient_zero (buildNodes_simple p cc rng ty v)]
    rfl
  · rw [setStructureType_children]
    simp only [List.countP_cons]
    rw [countP_isDirectional_zero (buildNodes_simple p cc rng ty v)]
    rfl

/-- C7 counterexample: a resize to `0 × 0` after a resize to `800 × 600` is
not a no-op — the handler has no guard, so the camera aspect is overwritten
with `NaN` (the value of `0 / 0`) and the surface is resized to `0 × 0`,
losing the prior values. -/
theorem claim7_resize_counterexample :
    (onWindowResize 0 0 (initCamera 800 600) ⟨800, 600⟩).1.aspect ≠
      (initCamera 800 600).aspect ∧
    (onWindowResize 0 0 (initCamera 800 600) ⟨800, 600⟩).1.aspect = JsNum.nan ∧
    (onWindowResize 0 0 (initCamera 800 600) ⟨800, 600⟩).2 ≠ (⟨800, 600⟩ : Renderer) := by
  decide

/-- C7 as amended: the resize handler is unconditional.  A resize whose
dimensions match the current surface and camera state is a value-level
no-op (the recomputed aspect and size equal the prior ones), and no error is
raised in any case, but a resize to `0 × 0` overwrites the aspect with `NaN`
and the surface dimensions with zero instead of retaining the prior
values. -/
theorem claim7_resize_behavior :
    (∀ (w h : ℚ) (cam : Camera) (r : Renderer),
      cam.aspect = jsDiv w h → r = ⟨w, h⟩ →
      onWindowResize w h cam r = (cam, r)) ∧
    (∀ (cam : Camera) (r : Renderer),
      (onWindowResize 0 0 cam r).1.aspect = JsNum.nan ∧
      (onWindowResize 0 0 cam r).2 = (⟨0, 0⟩ : Renderer)) := by
  constructor
  · intro w h cam r ha hr
    cases cam
    subst hr
    simp only [onWindowResize] at ha ⊢
    simp_all
  · intro cam r
    constructor
    · simp [onWindowResize, jsDiv]
    · rfl

/-- Witness for C7's amended statement at concrete dimensions. -/
theorem claim7_resize_behavior_witness :
    onWindowResize 800 600 (initCamera 800 600) ⟨800, 600⟩ =
      (initCamera 800 600, (⟨800, 600⟩ : Renderer)) ∧
    (onWindowResize 0 0 (initCamera 800 600) ⟨800, 600⟩).1.aspect = JsNum.nan :=
  ⟨claim7_resize_behavior.1 800 600 (initCamera 800 600) ⟨800, 600⟩ rfl rfl,
    (claim7_resize_behavior.2 (initCamera 800 600) ⟨800, 600⟩).1⟩

/-- C10: every cell mesh the organoid builder places — for any sequence of
random draws in `[0, 1)` — lies at Euclidean distance at most `0.8` from the
origin, hence strictly inside the core sphere of radius `1.0`. -/
theorem claim10_cells_inside_core (rng : ℕ → ℚ) (hr : ∀ k, 0 ≤ rng k ∧ rng k < 1)
    (n c s : ℕ) :
    ∀ o ∈ (buildOrganoid n rng c s).objs.drop 2, objDist o ≤ 0.8 ∧ objDist o < 1 := by
  intro o ho
  have hcells : (buildOrganoid n rng c s).objs.drop 2 = (cellLoop (s + 4) (s + 5) rng n c).1 :=
    rfl
  rw [hcells] at ho
  obtain ⟨k, _hk, he⟩ := cellLoop_mem (s + 4) (s + 5) rng n c o ho
  subst he
  exact mkCell_dist (s + 4) (s + 5) _ _ _ (hr (c + 3 * k + 2)).1 (hr (c + 3 * k + 2)).2

/-- Witness for C10: the single cell placed from the all-zero draw stream
sits at the origin, within the bound. -/
theorem claim10_cells_inside_core_witness :
    objDist (mkCell 4 5 0 0 0) ≤ 0.8 ∧ objDist (mkCell 4 5 0 0 0) < 1 :=
  claim10_cells_inside_core zeroRng (fun _k => ⟨le_rfl, by norm_num [zeroRng]⟩) 1 0 0
    (mkCell 4 5 0 0 0) (List.Mem.head _)

/-- C6 counterexample: the organoid branch draws from the implicit global
`Math.random` stream, which cannot be reset: with the same parameters and
the same global stream, a second build resumes the stream where the first
left off (cursor 3 instead of 0), and for the concrete stream `cexRng`
(whose draws are 0 except the sixth, which is 1) the two builds produce
different cell coordinate sequences. -/
theorem claim6_seed_determinism_counterexample :
    meshCoords (buildOrganoid 1 cexRng 0 0).objs ≠
      meshCoords (buildOrganoid 1 cexRng (buildOrganoid 1 cexRng 0 0).cursor
        (buildOrganoid 1 cexRng 0 0).nextId).objs := by
  intro hEq
  have hp1 : meshPositions (buildOrganoid 1 cexRng 0 0).objs =
      [⟨E.lit 0, E.lit 0, E.lit 0⟩, ⟨E.lit 0, E.lit 0, E.lit 0⟩,
        ⟨E.lit 0 * E.lit (0.8 : ℚ) * E.sin (E.lit 0 * E.pi) * E.cos (E.lit 0 * E.pi * E.lit 2),
          E.lit 0 * E.lit (0.8 : ℚ) * E.sin (E.lit 0 * E.pi) * E.sin (E.lit 0 * E.pi * E.lit 2),
          E.lit 0 * E.lit (0.8 : ℚ) * E.cos (E.lit 0 * E.pi)⟩] := rfl
  have hp2 : meshPositions (buildOrganoid 1 cexRng (buildOrganoid 1 cexRng 0 0).cursor
        (buildOrganoid 1 cexRng 0 0).nextId).objs =
      [⟨E.lit 0, E.lit 0, E.lit 0⟩, ⟨E.lit 0, E.lit 0, E.lit 0⟩,
        ⟨E.lit 1 * E.lit (0.8 : ℚ) * E.sin (E.lit 0 * E.pi) * E.cos (E.lit 0 * E.pi * E.lit 2),
          E.lit 1 * E.lit (0.8 : ℚ) * E.sin (E.lit 0 * E.pi) * E.sin (E.lit 0 * E.pi * E.lit 2),
          E.lit 1 * E.lit (0.8 : ℚ) * E.cos (E.lit 0 * E.pi)⟩] := rfl
  have hv1 : meshCoords (buildOrganoid 1 cexRng 0 0).objs =
      [((0 : ℝ), (0 : ℝ), (0 : ℝ)), (0, 0, 0), (0, 0, 0)] := by
    rw [meshCoords, hp1]
    simp [evalVec]
  have hv2 : meshCoords (buildOrganoid 1 cexRng (buildOrganoid 1 cexRng 0 0).cursor
        (buildOrganoid 1 cexRng 0 0).nextId).objs =
      [((0 : ℝ), (0 : ℝ), (0 : ℝ)), (0, 0, 0), (0, 0, ((0.8 : ℚ) : ℝ))] := by
    rw [meshCoords, hp2]
    simp [evalVec]
  rw [hv1, hv2] at hEq
  simp only [List.cons.injEq, Prod.mk.injEq, and_true, true_and] at hEq
  norm_num at hEq

/-- C6 as amended: cell placement is deterministic as a function of the
random draws actually consumed — two builds with identical parameters whose
consumed segments of the random stream agree produce identical node lists
(hence identical coordinate sequences) — but the code's random source is
the implicit global `Math.random` stream, not an injectable seeded
generator, so successive builds read successive, generally different,
stream segments. -/
theorem claim6_draw_determinism (rng1 rng2 : ℕ → ℚ) (c1 c2 n s : ℕ)
    (h : ∀ k, k < 3 * n → rng1 (c1 + k) = rng2 (c2 + k)) :
    (buildOrganoid n rng1 c1 s).objs = (buildOrganoid n rng2 c2 s).objs := by
  simp only [buildOrganoid]
  rw [cellLoop_congr (s + 4) (s + 5) rng1 rng2 n c1 c2 h]

/-- Witness for C6's amended statement: `cexRng` and `zeroRng` agree on the
first three draws, so one-cell builds from them coincide. -/
theorem claim6_draw_determinism_witness :
    (buildOrganoid 1 cexRng 0 0).objs = (buildOrganoid 1 zeroRng 0 0).objs :=
  claim6_draw_determinism cexRng zeroRng 0 0 1 0 (by
    intro k hk
    rcases k with _ | _ | _ | k
    · rfl
    · rfl
    · rfl
    · omega)

set_option maxRecDepth 40000 in
/-- C1 counterexample: after a switch to "dna" followed by a switch to
"organoid" on a freshly mounted scene, the dispose log holds 186 calls,
while the first switch allocated only 65 resources for its 93 nodes; the
shared backbone material (resource id 0) alone receives 62 dispose calls.
So dispose calls match neither the resource-allocation count nor the
node-allocation count of all but the final switch, and resources are
disposed more than once. -/
theorem claim1_dispose_counterexample :
    (setStructureType defaultHelix 50 zeroRng "dna" mountedViewer).disposed.length +
      (setStructureType defaultHelix 50 zeroRng "organoid"
        (setStructureType defaultHelix 50 zeroRng "dna" mountedViewer).viewer).disposed.length
      = 186 ∧
    (setStructureType defaultHelix 50 zeroRng "dna" mountedViewer).allocated.length = 65 ∧
    (contentNodes (setStructureType defaultHelix 50 zeroRng "dna" mountedViewer).viewer).length
      = 93 ∧
    ((setStructureType defaultHelix 50 zeroRng "dna" mountedViewer).disposed ++
      (setStructureType defaultHelix 50 zeroRng "organoid"
        (setStructureType defaultHelix 50 zeroRng "dna" mountedViewer).viewer).disposed).count 0
      = 62 ∧
    (186 : ℕ) ≠ 65 ∧ (186 : ℕ) ≠ 93 ∧ (1 : ℕ) < 62 := by
  decide

/-- C1 as amended: the clearing loop calls `dispose()` exactly once per
removed mesh for its geometry and once per material element (here every
mesh has one single material), so across any non-empty sequence of
structure-type switches on a freshly mounted scene the total number of
dispose calls is `2 ×` the total node count of all but the final switch;
because the builders share geometries and materials between nodes, the same
resource receives one dispose call per owning node and may therefore be
disposed many times. -/
theorem claim1_dispose_accounting (p : HelixParams) (cc : ℕ) (rng : ℕ → ℚ)
    (tys : List String) (h : tys ≠ []) :
    (runSwitches p cc rng tys mountedViewer).2.length =
      2 * ((tys.dropLast.map (switchCount p cc)).sum) := by
  have hmv : mountedViewer = ⟨mkAmbient :: mkDirectional :: [], 0, 0⟩ := rfl
  have hlog := runSwitches_log_length p cc rng tys [] 0 0 (by intro o ho; simp at ho)
  rw [if_neg h] at hlog
  rw [hmv]
  simpa using hlog

/-- Witness for C1's amended statement: two switches on a fresh scene
dispose `2 × 93` resources — twice the node count of the first build. -/
theorem claim1_dispose_accounting_witness :
    (runSwitches defaultHelix 50 zeroRng ["dna", "organoid"] mountedViewer).2.length =
      2 * (((["dna", "organoid"] : List String).dropLast.map (switchCount defaultHelix 50)).sum) :=
  claim1_dispose_accounting defaultHelix 50 zeroRng ["dna", "organoid"] (by decide)

end BioSynth
